import Mathlib

/-!
Shallow embedding of the core of the `cpp-rotor` actor framework, covering the
child-manager plugin (`src/rotor/plugin/child_manager.cpp`), the prestarter
plugin (`src/rotor/plugin/prestarter.cpp`) and the typed message handlers
(`include/rotor/handler.hpp`).

Pure data is translated directly; stateful member functions become functions
from a supervisor state to a new state paired with the list of externally
visible effects (messages sent, `do_shutdown` calls, plugin reactions, ...),
in the order the C++ code performs them.
-/

namespace rotor

/-- Lifecycle states of an actor, in the total order used by the code
(`state <= state_t::INITIALIZING` comparisons). -/
inductive state_t
  | NEW
  | INITIALIZING
  | INITIALIZED
  | OPERATIONAL
  | SHUTTING_DOWN
  | SHUT_DOWN
deriving DecidableEq

/-- Numeric rank of a lifecycle state, mirroring the C++ enum ordering. -/
def state_t.toNat : state_t → Nat
  | .NEW => 0
  | .INITIALIZING => 1
  | .INITIALIZED => 2
  | .OPERATIONAL => 3
  | .SHUTTING_DOWN => 4
  | .SHUT_DOWN => 5

/-- The `<=` comparison on actor states used in the source. -/
def state_le (a b : state_t) : Bool := decide (a.toNat ≤ b.toNat)

/-- Per-child request deduplication states (`request_state_t` in the source). -/
inductive request_state_t
  | NONE
  | SENT
  | CONFIRMED
deriving DecidableEq

/-- Supervisor init-failure policies (`supervisor_policy_t`). -/
inductive supervisor_policy_t
  | shutdown_self
  | shutdown_failed
deriving DecidableEq

/-- Generic error codes (`error_code_t`), from `error_code.cpp`. -/
inductive error_code_t
  | success
  | cancelled
  | request_timeout
  | supervisor_defined
  | already_registered
  | actor_misconfigured
  | actor_not_linkable
  | already_linked
  | failure_escalation
  | unknown_service
deriving DecidableEq

/-- Shutdown reason codes (`shutdown_code_t`). -/
inductive shutdown_code_t
  | normal
  | init_failed
  | child_init_failed
  | supervisor_shutdown
  | unlink_requested
deriving DecidableEq

/-- A code carried by an extended error: either a generic error code or a
shutdown code (the C++ side distinguishes them by error category). -/
inductive err_code_t
  | err (e : error_code_t)
  | shut (s : shutdown_code_t)
deriving DecidableEq

/-- `extended_error_t`: an error code with an optional cause chain.
`base c` is `make_error(c)`, `wrap c e` is `make_error(c, e)`. -/
inductive extended_error_t
  | base (code : err_code_t)
  | wrap (code : err_code_t) (cause : extended_error_t)
deriving DecidableEq

/-- Topmost code of an extended error. -/
def extended_error_t.code : extended_error_t → err_code_t
  | .base c => c
  | .wrap c _ => c

/-- Actor addresses; identity is all that matters, so a `Nat` suffices. -/
abbrev address_t := Nat

/-- One entry of the supervisor's `actors_map` (`actor_state_t` in the
source): the referenced actor (its address and lifecycle state, which this
plugin only reads) plus the bookkeeping flags.  The misspelled `strated`
field name is kept from the source. -/
structure actor_state_t where
  addr : address_t
  state : state_t
  initialized : Bool
  strated : Bool
  shutdown : request_state_t
deriving DecidableEq

/-- State of a supervisor as seen by its child-manager plugin: identity and
configuration of the supervisor plus the `actors_map` (which contains a
self-entry). `init_request` records whether an init request is pending. -/
structure supervisor_t where
  selfAddr : address_t
  policy : supervisor_policy_t
  synchronize_start : Bool
  hasParent : Bool
  state : state_t
  init_request : Bool
  actors_map : List actor_state_t
deriving DecidableEq

/-- Externally visible effects of the plugin's member functions, in program
order: messages sent, `do_shutdown`/lifecycle calls on actors, reaction
changes, request cancellations and callbacks. -/
inductive effect_t
  | send_start_actor (a : address_t)
  | send_shutdown_request (a : address_t)
  | reply_init_error (e : extended_error_t)
  | do_shutdown_on (a : address_t) (reason : extended_error_t)
  | shutdown_start
  | shutdown_continue
  | reaction_off_init
  | actor_init_continue
  | cancel_init (a : address_t)
  | on_child_init (found : Bool) (a : address_t)
  | on_child_shutdown (a : address_t)
  | on_error (e : extended_error_t)
deriving DecidableEq

/-- Topmost reason code carried by an effect, when it carries one. -/
def effect_reason_code : effect_t → Option err_code_t
  | .reply_init_error e => some e.code
  | .do_shutdown_on _ r => some r.code
  | _ => none

/-- Lookup of an `actors_map` entry by address (`actors_map.find(addr)`). -/
def find_state (m : List actor_state_t) (a : address_t) : Option actor_state_t :=
  m.find? fun st => st.addr == a

/-- Shutdown request-state of the entry at an address, if present. -/
def shutdown_of (m : List actor_state_t) (a : address_t) : Option request_state_t :=
  (find_state m a).map fun st => st.shutdown

/-- Update the entry at an address in place, like mutating through a map
iterator in the source. -/
def update_entry (m : List actor_state_t) (a : address_t) (f : actor_state_t → actor_state_t) :
    List actor_state_t :=
  m.map fun st => if st.addr = a then f st else st

/-- `actor_state.shutdown = v` on the entry at address `a`. -/
def set_shutdown (m : List actor_state_t) (a : address_t) (v : request_state_t) :
    List actor_state_t :=
  update_entry m a fun st => { st with shutdown := v }

/-- `it_actor->second.initialized = true`. -/
def set_initialized (m : List actor_state_t) (a : address_t) : List actor_state_t :=
  update_entry m a fun st => { st with initialized := true }

/-- `it_actor->second.strated = true`. -/
def set_strated (m : List actor_state_t) (a : address_t) : List actor_state_t :=
  update_entry m a fun st => { st with strated := true }

/-- `child_manager_plugin_t::has_initializing`: some non-self entry whose
actor state is at most `INITIALIZING` and whose `initialized` flag is unset. -/
def has_initializing (s : supervisor_t) : Bool :=
  s.actors_map.any fun st =>
    (st.addr != s.selfAddr) && state_le st.state state_t.INITIALIZING && !st.initialized

/-- `child_manager_plugin_t::init_continue`: when the supervisor is
`INITIALIZING`, an init request is pending and no child is still
initializing, turn the INIT reaction off and advance the actor's init. -/
def init_continue (s : supervisor_t) : List effect_t :=
  if s.state = state_t.INITIALIZING ∧ s.init_request = true ∧ has_initializing s = false then
    [effect_t.reaction_off_init, effect_t.actor_init_continue]
  else []

/-- Payload of an init response (`message::init_response_t`): the requested
actor's address and the optional error. -/
structure init_response_t where
  address : address_t
  ec : Option extended_error_t
deriving DecidableEq

/-- `child_manager_plugin_t::on_init`, the init-response handler.  Returns
the updated supervisor state and the effects in program order. -/
def on_init (s : supervisor_t) (msg : init_response_t) : supervisor_t × List effect_t :=
  let found := find_state s.actors_map msg.address
  let core : supervisor_t × List effect_t :=
    match msg.ec with
    | some e =>
      if s.state = state_t.INITIALIZING ∧ s.policy = supervisor_policy_t.shutdown_self then
        if s.init_request then
          ({ s with init_request := false },
            [effect_t.reply_init_error
              (extended_error_t.wrap (err_code_t.err error_code_t.failure_escalation) e)])
        else
          (s, [effect_t.do_shutdown_on s.selfAddr
            (extended_error_t.wrap (err_code_t.shut shutdown_code_t.child_init_failed) e)])
      else
        let target := if found.isSome then msg.address else s.selfAddr
        (s, [effect_t.do_shutdown_on target
          (extended_error_t.wrap (err_code_t.shut shutdown_code_t.init_failed) e)])
    | none =>
      match found with
      | none => (s, [])
      | some _ =>
        let m1 := set_initialized s.actors_map msg.address
        let do_start :=
          if msg.address = s.selfAddr then state_le s.state state_t.OPERATIONAL
          else !s.synchronize_start
        if do_start then
          ({ s with actors_map := set_strated m1 msg.address },
            [effect_t.send_start_actor msg.address])
        else ({ s with actors_map := m1 }, [])
  let cont_eff := if msg.ec.isNone && !has_initializing s then init_continue core.1 else []
  let child_eff :=
    if msg.address = s.selfAddr then [] else [effect_t.on_child_init found.isSome msg.address]
  (core.1, core.2 ++ cont_eff ++ child_eff)

/-- `child_manager_plugin_t::request_shutdown(actor_state_t&, reason)`, with a
fuel bound for the (in practice depth-two) recursion through the broadcast to
all map entries on the parentless self path.  Every path through the
`shutdown == NONE` branch ends with the source's final `shutdown = SENT`
assignment. -/
def request_shutdown_core : Nat → extended_error_t → supervisor_t → address_t →
    supervisor_t × List effect_t
  | 0, _, s, _ => (s, [])
  | fuel + 1, reason, s, a =>
    match find_state s.actors_map a with
    | none => (s, [])
    | some st =>
      if st.shutdown = request_state_t.NONE then
        if a = s.selfAddr then
          if s.hasParent then
            ({ s with actors_map := set_shutdown s.actors_map a request_state_t.SENT },
              [effect_t.cancel_init a, effect_t.do_shutdown_on a reason])
          else
            if s.state = state_t.SHUTTING_DOWN then
              ({ s with actors_map := set_shutdown s.actors_map a request_state_t.SENT },
                [effect_t.cancel_init a])
            else
              let s1 := { s with actors_map := set_shutdown s.actors_map a request_state_t.CONFIRMED }
              let r2 := (s1.actors_map.map fun st2 => st2.addr).foldl
                (fun acc a2 =>
                  let r := request_shutdown_core fuel reason acc.1 a2
                  (r.1, acc.2 ++ r.2))
                (s1, ([] : List effect_t))
              ({ r2.1 with actors_map := set_shutdown r2.1.actors_map a request_state_t.SENT },
                [effect_t.cancel_init a, effect_t.shutdown_start] ++ r2.2 ++
                  [effect_t.shutdown_continue])
        else
          ({ s with actors_map := set_shutdown s.actors_map a request_state_t.SENT },
            [effect_t.cancel_init a, effect_t.send_shutdown_request a])
      else (s, [])

/-- `child_manager_plugin_t::request_shutdown(reason)`: broadcast to every
entry of the `actors_map`, in map order. -/
def request_shutdown_all (fuel : Nat) (reason : extended_error_t) (s : supervisor_t) :
    supervisor_t × List effect_t :=
  (s.actors_map.map fun st2 => st2.addr).foldl
    (fun acc a2 =>
      let r := request_shutdown_core fuel reason acc.1 a2
      (r.1, acc.2 ++ r.2))
    (s, ([] : List effect_t))

/-- Entry point for a single `request_shutdown(actor_state, reason)` call,
with enough fuel for the bounded recursion. -/
def request_shutdown_one (s : supervisor_t) (a : address_t) (reason : extended_error_t) :
    supervisor_t × List effect_t :=
  request_shutdown_core ((s.actors_map.length + 1) + 1) reason s a

/-- Payload of a `shutdown_trigger` message as used by the plugin: the source
actor's address and the shutdown reason. -/
structure shutdown_trigger_t where
  actor_address : address_t
  reason : extended_error_t
deriving DecidableEq

/-- `child_manager_plugin_t::on_shutdown_trigger`. -/
def on_shutdown_trigger (s : supervisor_t) (msg : shutdown_trigger_t) :
    supervisor_t × List effect_t :=
  request_shutdown_one s msg.actor_address msg.reason

/-- Modelled from the spec: `plugin_base_t::handle_shutdown` is not under
`src/`; per the plugin-chain description a base plugin's gate lets the phase
proceed, so the default handler returns `true`. -/
def plugin_base_handle_shutdown : Bool := true

/-- `child_manager_plugin_t::handle_shutdown`: mark the self-entry CONFIRMED
(to prevent double-sending the request), broadcast shutdown requests, and let
the supervisor's own shutdown proceed only when the map holds a single
(self) entry. -/
def handle_shutdown (s : supervisor_t) (reason : extended_error_t) :
    Bool × supervisor_t × List effect_t :=
  let s1 := { s with actors_map := set_shutdown s.actors_map s.selfAddr request_state_t.CONFIRMED }
  let r := request_shutdown_all ((s.actors_map.length + 1) + 1) reason s1
  ((r.1.actors_map.length == 1) && plugin_base_handle_shutdown, r.1, r.2)

/-- `child_manager_plugin_t::remove_child`: possibly escalate or shut the
supervisor down (per policy, when it is `INITIALIZING` and the child never
started), cancel the child's init, erase the map entry, advance the
supervisor's own shutdown when at most the self-entry remains, and retry
`init_continue`. -/
def remove_child (s : supervisor_t) (a : address_t) : supervisor_t × List effect_t :=
  match find_state s.actors_map a with
  | none => (s, [])
  | some entry =>
    let escalate := s.state = state_t.INITIALIZING ∧ entry.strated = false ∧
      s.policy ≠ supervisor_policy_t.shutdown_failed ∧ s.init_request = true
    let eff0 : List effect_t :=
      if escalate then
        [effect_t.reply_init_error
          (extended_error_t.base (err_code_t.err error_code_t.failure_escalation))]
      else if s.state = state_t.INITIALIZING ∧ entry.strated = false ∧
          s.policy = supervisor_policy_t.shutdown_failed then
        [effect_t.do_shutdown_on s.selfAddr
          (extended_error_t.base (err_code_t.shut shutdown_code_t.child_init_failed))]
      else []
    let m' := s.actors_map.filter fun st => st.addr != a
    let s' := { s with
      init_request := if escalate then false else s.init_request
      actors_map := m' }
    let cont :=
      if s.state = state_t.SHUTTING_DOWN ∧ m'.length ≤ 1 then [effect_t.shutdown_continue]
      else []
    (s', eff0 ++ [effect_t.cancel_init a] ++ cont ++ init_continue s')

/-- `child_manager_plugin_t::handle_start`: under `synchronize_start`, send
`start_actor` to every non-self entry and mark it started. -/
def handle_start (s : supervisor_t) : supervisor_t × List effect_t :=
  if s.synchronize_start then
    let r := s.actors_map.foldl
      (fun (acc : List actor_state_t × List effect_t) st =>
        if st.addr = s.selfAddr then (acc.1 ++ [st], acc.2)
        else (acc.1 ++ [{ st with strated := true }], acc.2 ++ [effect_t.send_start_actor st.addr]))
      (([] : List actor_state_t), ([] : List effect_t))
    ({ s with actors_map := r.1 }, r.2)
  else (s, [])

/-! Prestarter plugin (`src/rotor/plugin/prestarter.cpp`).  Subscription
points are identified by a `Nat` token; the tracked set is the list filled by
`actor->configure(*this)` during activation. -/

/-- Plugin reactions (`reaction_t`). -/
inductive reaction_t
  | INIT
  | SHUTDOWN
  | START
  | SUBSCRIPTION
deriving DecidableEq

/-- Plugin processing results (`plugin_t::processing_result_t`). -/
inductive processing_result_t
  | IGNORED
  | CONSUMED
  | FINISHED
deriving DecidableEq

/-- Subscription point identity. -/
abbrev point_t := Nat

/-- State of a `prestarter_plugin_t`: the tracked subscription points, the
`continue_init` flag and the set of armed reactions. -/
structure prestarter_t where
  tracked : List point_t
  continue_init : Bool
  reactions : List reaction_t
deriving DecidableEq

/-- `prestarter_plugin_t::activate`: arm INIT and SUBSCRIPTION, run
`configure` (which yields the tracked list), and disarm both again when the
tracked set came out empty. -/
def prestarter_activate (tracked0 : List point_t) : prestarter_t :=
  let p : prestarter_t :=
    { tracked := tracked0, continue_init := false,
      reactions := [reaction_t.INIT, reaction_t.SUBSCRIPTION] }
  if p.tracked.isEmpty then
    { p with reactions := ((p.reactions.erase reaction_t.INIT).erase reaction_t.SUBSCRIPTION) }
  else p

/-- `prestarter_plugin_t::handle_subscription`: erase the first tracked point
matching the event; once the tracked set is empty, consume `continue_init`
(calling the actor's `init_continue`, reported as the `Bool` component) and
report FINISHED. -/
def prestarter_handle_subscription (p : prestarter_t) (point : point_t) :
    prestarter_t × processing_result_t × Bool :=
  let tracked1 := p.tracked.erase point
  if tracked1.isEmpty then
    if p.continue_init then
      ({ p with tracked := tracked1, continue_init := false }, processing_result_t.FINISHED, true)
    else ({ p with tracked := tracked1 }, processing_result_t.FINISHED, false)
  else ({ p with tracked := tracked1 }, processing_result_t.IGNORED, false)

/-- `prestarter_plugin_t::handle_init`: init may proceed iff nothing is
tracked; otherwise remember that init must be continued later. -/
def prestarter_handle_init (p : prestarter_t) : Bool × prestarter_t :=
  if p.tracked.isEmpty then (true, p)
  else (false, { p with continue_init := true })

/-! Typed message handlers (`include/rotor/handler.hpp`).  A message carries
a runtime type token (`type_index`); each of the three `handler_t`
specializations guards its downcast-and-invoke behind an equality test of
that token against the handler's message type. -/

/-- A message as seen by dispatch: its runtime type token and its payload. -/
structure message_ptr_t where
  type_index : Nat
  payload : Nat
deriving DecidableEq

/-- The bound callee of a handler: the three `handler_t` specializations
(actor method, plugin method, lambda). -/
inductive handler_backend_t
  | actor_method (actor_id : Nat) (fn_id : Nat)
  | plugin_method (plugin_id : Nat) (fn_id : Nat)
  | lambda_fn (fn_id : Nat)
deriving DecidableEq

/-- A handler: the message type it accepts and its bound callee. -/
structure handler_t where
  message_type : Nat
  backend : handler_backend_t
deriving DecidableEq

/-- The checked form of the `static_cast` to the final message type:
succeeds exactly when the runtime type token matches. -/
def downcast (m : message_ptr_t) (t : Nat) : Option message_ptr_t :=
  if m.type_index = t then some m else none

/-- One invocation of a bound callee on a downcast message. -/
structure invocation_t where
  backend : handler_backend_t
  msg : message_ptr_t
deriving DecidableEq

/-- `handler_t::call` (all three specializations share this shape): when the
message's type token equals the handler's message type, downcast and invoke
the bound callee once; otherwise do nothing. -/
def handler_call (h : handler_t) (m : message_ptr_t) : List invocation_t :=
  if m.type_index = h.message_type then
    match downcast m h.message_type with
    | some fm => [{ backend := h.backend, msg := fm }]
    | none => []
  else []

/-! Sample states used by witnesses and counterexamples. -/

/-- Self-entry of a sample supervisor at address 0. -/
def sampleSelfEntry : actor_state_t :=
  { addr := 0, state := state_t.INITIALIZING, initialized := false, strated := false,
    shutdown := request_state_t.NONE }

/-- Sample child entry at address 1. -/
def sampleChildEntry : actor_state_t :=
  { addr := 1, state := state_t.INITIALIZING, initialized := false, strated := false,
    shutdown := request_state_t.NONE }

/-- A sample child error (a request timeout). -/
def sampleErr : extended_error_t := extended_error_t.base (err_code_t.err error_code_t.request_timeout)

/-- A sample shutdown reason. -/
def sampleReason : extended_error_t := extended_error_t.base (err_code_t.shut shutdown_code_t.normal)

/-- A sample parentless supervisor at address 0 with one child at address 1,
initializing, with a pending init request, policy `shutdown_failed`. -/
def sampleSup : supervisor_t :=
  { selfAddr := 0, policy := supervisor_policy_t.shutdown_failed, synchronize_start := false,
    hasParent := false, state := state_t.INITIALIZING, init_request := true,
    actors_map := [sampleSelfEntry, sampleChildEntry] }

/-- Sample supervisor whose child already has a SENT shutdown request. -/
def sampleSupSent : supervisor_t :=
  { sampleSup with
    actors_map := [sampleSelfEntry, { sampleChildEntry with shutdown := request_state_t.SENT }] }

/-- Sample supervisor under policy `shutdown_self`. -/
def sampleSupSelf : supervisor_t := { sampleSup with policy := supervisor_policy_t.shutdown_self }

/-- Sample supervisor with `synchronize_start` set and two children. -/
def sampleSupSync : supervisor_t :=
  { sampleSup with
    synchronize_start := true
    actors_map := [sampleSelfEntry, sampleChildEntry, { sampleChildEntry with addr := 2 }] }

/-- Sample supervisor whose map holds only the self-entry. -/
def sampleSupSolo : supervisor_t := { sampleSup with actors_map := [sampleSelfEntry] }

/-- Sample shutting-down supervisor whose entries have all confirmed. -/
def sampleSupDown : supervisor_t :=
  { sampleSup with
    state := state_t.SHUTTING_DOWN
    actors_map := [{ sampleSelfEntry with shutdown := request_state_t.CONFIRMED },
      { sampleChildEntry with strated := true, shutdown := request_state_t.CONFIRMED }] }

/-- Sample prestarter with one tracked point and a pending continue flag. -/
def samplePre : prestarter_t := { tracked := [5], continue_init := true, reactions := [] }

/-- Sample handler accepting message type 3. -/
def sampleHandler : handler_t := { message_type := 3, backend := handler_backend_t.lambda_fn 7 }

/-- Sample message of type 3. -/
def sampleMsg : message_ptr_t := { type_index := 3, payload := 9 }

/-- Sample message of the non-matching type 4. -/
def sampleMsgOther : message_ptr_t := { type_index := 4, payload := 9 }

/-- The per-supervisor predicate claimed invariant by the spec: the
self-entry's shutdown state is CONFIRMED only if every child entry's
shutdown state is CONFIRMED. -/
def children_confirmed_if_self (s : supervisor_t) : Bool :=
  !(shutdown_of s.actors_map s.selfAddr == some request_state_t.CONFIRMED) ||
    s.actors_map.all fun st =>
      (st.addr == s.selfAddr) || (st.shutdown == request_state_t.CONFIRMED)

/-! Helper lemmas about map updates and folds. -/

lemma foldl_invariant {α β : Type} (P : α → Prop) (f : α → β → α) :
    ∀ (l : List β) (init : α), P init → (∀ x b, P x → P (f x b)) → P (l.foldl f init) := by
  intro l
  induction l with
  | nil => intro init h _; exact h
  | cons b l ih => intro init h hstep; exact ih (f init b) (hstep init b h) hstep

lemma update_entry_addrs (a : address_t) (f : actor_state_t → actor_state_t)
    (hf : ∀ st, (f st).addr = st.addr) :
    ∀ m : List actor_state_t,
      (update_entry m a f).map (fun st => st.addr) = m.map (fun st => st.addr) := by
  intro m
  induction m with
  | nil => rfl
  | cons x xs ih =>
    simp only [update_entry, List.map_cons] at ih ⊢
    refine congrArg₂ List.cons ?_ ih
    by_cases h : x.addr = a
    · simp [h, hf]
    · simp [h]

lemma find_update_eq (a : address_t) (f : actor_state_t → actor_state_t)
    (hf : ∀ st, (f st).addr = st.addr) :
    ∀ m : List actor_state_t, find_state (update_entry m a f) a = (find_state m a).map f := by
  intro m
  induction m with
  | nil => rfl
  | cons x xs ih =>
    by_cases h : x.addr = a
    · simp [find_state, update_entry, List.find?_cons, h, hf]
    · simp only [find_state, update_entry, List.map_cons, if_neg h] at ih ⊢
      rw [List.find?_cons_of_neg, List.find?_cons_of_neg]
      · exact ih
      · simp [h]
      · simp [h]

lemma find_update_ne (a a' : address_t) (f : actor_state_t → actor_state_t)
    (hf : ∀ st, (f st).addr = st.addr) (hne : a' ≠ a) :
    ∀ m : List actor_state_t, find_state (update_entry m a f) a' = find_state m a' := by
  intro m
  induction m with
  | nil => rfl
  | cons x xs ih =>
    by_cases h : x.addr = a
    · simp only [find_state, update_entry, List.map_cons, if_pos h] at ih ⊢
      rw [List.find?_cons_of_neg _ (by simp [hf, h, Ne.symm hne]),
        List.find?_cons_of_neg _ (by simp [h, Ne.symm hne])]
      exact ih
    · by_cases h' : x.addr = a'
      · simp only [find_state, update_entry, List.map_cons, if_neg h]
        rw [List.find?_cons_of_pos _ (by simp [h']), List.find?_cons_of_pos _ (by simp [h'])]
      · simp only [find_state, update_entry, List.map_cons, if_neg h] at ih ⊢
        rw [List.find?_cons_of_neg _ (by simp [h']), List.find?_cons_of_neg _ (by simp [h'])]
        exact ih

lemma shutdown_of_set_ne (a a' : address_t) (v : request_state_t)
    (hne : a' ≠ a) (m : List actor_state_t) :
    shutdown_of (set_shutdown m a v) a' = shutdown_of m a' := by
  unfold shutdown_of set_shutdown
  rw [find_update_ne a a' (fun st => { st with shutdown := v }) (fun st => rfl) hne m]

lemma shutdown_of_set_eq (a : address_t) (v : request_state_t) (m : List actor_state_t)
    (st : actor_state_t) (h : find_state m a = some st) :
    shutdown_of (set_shutdown m a v) a = some v := by
  unfold shutdown_of set_shutdown
  rw [find_update_eq a (fun st => { st with shutdown := v }) (fun st => rfl) m, h]
  rfl

lemma set_shutdown_addrs (a : address_t) (v : request_state_t) (m : List actor_state_t) :
    (set_shutdown m a v).map (fun st => st.addr) = m.map (fun st => st.addr) :=
  update_entry_addrs a (fun st => { st with shutdown := v }) (fun _ => rfl) m

lemma find_state_mem (m : List actor_state_t) (a : address_t) (st : actor_state_t)
    (h : find_state m a = some st) : st ∈ m ∧ st.addr = a := by
  unfold find_state at h
  refine ⟨List.mem_of_find?_eq_some h, ?_⟩
  have := List.find?_some h
  simpa using this

lemma request_shutdown_core_addrs :
    ∀ (fuel : Nat) (reason : extended_error_t) (s : supervisor_t) (a : address_t),
      (request_shutdown_core fuel reason s a).1.actors_map.map (fun st => st.addr) =
        s.actors_map.map (fun st => st.addr) := by
  intro fuel
  induction fuel with
  | zero => intro reason s a; rfl
  | succ fuel ih =>
    intro reason s a
    rw [request_shutdown_core]
    cases hfind : find_state s.actors_map a with
    | none => rfl
    | some st =>
      simp only
      by_cases hn : st.shutdown = request_state_t.NONE
      · rw [if_pos hn]
        by_cases hself : a = s.selfAddr
        · rw [if_pos hself]
          by_cases hpar : s.hasParent
          · rw [if_pos hpar]; exact set_shutdown_addrs _ _ _
          · rw [if_neg hpar]
            by_cases hstate : s.state = state_t.SHUTTING_DOWN
            · rw [if_pos hstate]; exact set_shutdown_addrs _ _ _
            · rw [if_neg hstate]
              simp only
              rw [set_shutdown_addrs]
              exact foldl_invariant
                (fun (acc : supervisor_t × List effect_t) =>
                  acc.1.actors_map.map (fun st => st.addr) =
                    s.actors_map.map (fun st => st.addr))
                _ _ _ (set_shutdown_addrs _ _ _)
                (fun x b hx => (ih reason x.1 b).trans hx)
        · rw [if_neg hself]; exact set_shutdown_addrs _ _ _
      · rw [if_neg hn]

lemma request_shutdown_core_pres_confirmed :
    ∀ (fuel : Nat) (reason : extended_error_t) (s : supervisor_t) (a a0 : address_t),
      shutdown_of s.actors_map a0 = some request_state_t.CONFIRMED →
      shutdown_of (request_shutdown_core fuel reason s a).1.actors_map a0 =
        some request_state_t.CONFIRMED := by
  intro fuel
  induction fuel with
  | zero => intro reason s a a0 h; exact h
  | succ fuel ih =>
    intro reason s a a0 h
    rw [request_shutdown_core]
    cases hfind : find_state s.actors_map a with
    | none => exact h
    | some st =>
      simp only
      by_cases hn : st.shutdown = request_state_t.NONE
      · have hne : a0 ≠ a := by
          intro heq
          rw [heq] at h
          unfold shutdown_of at h
          rw [hfind] at h
          simp only [Option.map_some'] at h
          rw [hn] at h
          exact request_state_t.noConfusion (Option.some.inj h)
        rw [if_pos hn]
        by_cases hself : a = s.selfAddr
        · rw [if_pos hself]
          by_cases hpar : s.hasParent
          · rw [if_pos hpar]; exact (shutdown_of_set_ne _ _ _ hne _).trans h
          · rw [if_neg hpar]
            by_cases hstate : s.state = state_t.SHUTTING_DOWN
            · rw [if_pos hstate]; exact (shutdown_of_set_ne _ _ _ hne _).trans h
            · rw [if_neg hstate]
              simp only
              rw [shutdown_of_set_ne _ _ _ hne]
              exact foldl_invariant
                (fun (acc : supervisor_t × List effect_t) =>
                  shutdown_of acc.1.actors_map a0 = some request_state_t.CONFIRMED)
                _ _ _ ((shutdown_of_set_ne _ _ _ hne _).trans h)
                (fun x b hx => ih reason x.1 b a0 hx)
        · rw [if_neg hself]; exact (shutdown_of_set_ne _ _ _ hne _).trans h
      · rw [if_neg hn]; exact h

lemma find_set_initialized (m : List actor_state_t) (a : address_t) (st : actor_state_t)
    (h : find_state m a = some st) :
    find_state (set_initialized m a) a = some { st with initialized := true } := by
  unfold set_initialized
  rw [find_update_eq a (fun st => { st with initialized := true }) (fun st => rfl) m, h]
  rfl

lemma find_set_strated (m : List actor_state_t) (a : address_t) (st : actor_state_t)
    (h : find_state m a = some st) :
    find_state (set_strated m a) a = some { st with strated := true } := by
  unfold set_strated
  rw [find_update_eq a (fun st => { st with strated := true }) (fun st => rfl) m, h]
  rfl

lemma length_le_one_mem {α : Type} {l : List α} {x : α} (h : l.length ≤ 1) (hx : x ∈ l) :
    l = [x] := by
  cases l with
  | nil => cases hx
  | cons y ys =>
    cases ys with
    | nil =>
      cases hx with
      | head => rfl
      | tail _ h' => cases h'
    | cons z zs => simp at h

lemma send_start_not_in_init_continue (s : supervisor_t) (a : address_t) :
    effect_t.send_start_actor a ∉ init_continue s := by
  unfold init_continue
  split <;> simp

lemma handle_start_fold (sa : address_t) :
    ∀ (l : List actor_state_t) (acc : List actor_state_t × List effect_t),
      (l.foldl (fun (acc : List actor_state_t × List effect_t) st =>
        if st.addr = sa then (acc.1 ++ [st], acc.2)
        else (acc.1 ++ [{ st with strated := true }],
          acc.2 ++ [effect_t.send_start_actor st.addr])) acc) =
      (acc.1 ++ l.map (fun st => if st.addr = sa then st else { st with strated := true }),
        acc.2 ++ (l.filter fun st => st.addr != sa).map
          (fun st => effect_t.send_start_actor st.addr)) := by
  intro l
  induction l with
  | nil => intro acc; simp
  | cons x xs ih =>
    intro acc
    by_cases h : x.addr = sa
    · simp only [List.foldl_cons, if_pos h, ih, List.map_cons, List.filter_cons]
      simp [h]
    · simp only [List.foldl_cons, if_neg h, ih, List.map_cons, List.filter_cons]
      simp [h]

lemma on_init_ok_shape (s : supervisor_t) (a : address_t) (st : actor_state_t)
    (hne : a ≠ s.selfAddr) (hfound : find_state s.actors_map a = some st) :
    (s.synchronize_start = true →
      on_init s ⟨a, none⟩ =
        ({ s with actors_map := set_initialized s.actors_map a },
          (if has_initializing s then []
           else init_continue { s with actors_map := set_initialized s.actors_map a }) ++
            [effect_t.on_child_init true a])) ∧
    (s.synchronize_start = false →
      on_init s ⟨a, none⟩ =
        ({ s with actors_map := set_strated (set_initialized s.actors_map a) a },
          [effect_t.send_start_actor a] ++
            (if has_initializing s then []
             else init_continue
               { s with actors_map := set_strated (set_initialized s.actors_map a) a }) ++
            [effect_t.on_child_init true a])) := by
  constructor <;> intro hsync <;> unfold on_init <;>
    by_cases hhi : has_initializing s <;> simp [hfound, hne, hsync, hhi]

lemma remove_child_cont (s : supervisor_t) (a : address_t) (entry : actor_state_t)
    (hfound : find_state s.actors_map a = some entry)
    (h : effect_t.shutdown_continue ∈ (remove_child s a).2) :
    s.state = state_t.SHUTTING_DOWN ∧
      (s.actors_map.filter fun st => st.addr != a).length ≤ 1 := by
  simp only [remove_child, hfound, List.mem_append] at h
  rcases h with ((hb | hc) | hcont) | hic
  · split_ifs at hb <;> simp at hb
  · simp at hc
  · by_cases hcond : s.state = state_t.SHUTTING_DOWN ∧
      (s.actors_map.filter fun st => st.addr != a).length ≤ 1
    · exact hcond
    · rw [if_neg hcond] at hcont
      simp at hcont
  · unfold init_continue at hic
    split at hic <;> simp at hic

/-! Claim theorems. -/

/-- C6: `has_initializing` returns true iff some entry of the `actors_map`
other than the self-entry has an actor whose state is at most INITIALIZING
and whose `initialized` flag is false; and `init_continue` turns the INIT
reaction off and calls the actor's `init_continue` exactly when the
supervisor is INITIALIZING, an init request is pending and
`has_initializing` is false. -/
theorem c6_has_initializing_init_continue :
    (∀ s : supervisor_t, has_initializing s = true ↔
      ∃ st, st ∈ s.actors_map ∧ st.addr ≠ s.selfAddr ∧
        state_le st.state state_t.INITIALIZING = true ∧ st.initialized = false) ∧
    (∀ s : supervisor_t,
      (effect_t.reaction_off_init ∈ init_continue s ∧
        effect_t.actor_init_continue ∈ init_continue s) ↔
      (s.state = state_t.INITIALIZING ∧ s.init_request = true ∧ has_initializing s = false)) := by
  constructor
  · intro s
    unfold has_initializing
    rw [List.any_eq_true]
    constructor
    · rintro ⟨st, hmem, hpred⟩
      simp only [Bool.and_eq_true, bne_iff_ne, Bool.not_eq_true'] at hpred
      exact ⟨st, hmem, hpred.1.1, hpred.1.2, hpred.2⟩
    · rintro ⟨st, hmem, h1, h2, h3⟩
      exact ⟨st, hmem, by simp [h1, h2, h3]⟩
  · intro s
    unfold init_continue
    by_cases h : s.state = state_t.INITIALIZING ∧ s.init_request = true ∧ has_initializing s = false
    · rw [if_pos h]; simp [h]
    · rw [if_neg h]; simp [h]

/-- Witness for C6 at a concrete supervisor with one uninitialized child. -/
theorem c6_witness : has_initializing sampleSup = true :=
  (c6_has_initializing_init_continue.1 sampleSup).mpr
    ⟨sampleChildEntry, by decide, by decide, by decide, by decide⟩

/-- C8: when an entry's shutdown request-state is already SENT or CONFIRMED,
`request_shutdown` (and hence `on_shutdown_trigger`) is a no-op: no request
is sent, no shutdown is started, and neither the entry nor the supervisor
state changes. -/
theorem c8_request_shutdown_dedup (s : supervisor_t) (a : address_t)
    (reason : extended_error_t) (st : actor_state_t)
    (hfind : find_state s.actors_map a = some st)
    (h : st.shutdown ≠ request_state_t.NONE) :
    request_shutdown_one s a reason = (s, []) ∧
    on_shutdown_trigger s ⟨a, reason⟩ = (s, []) := by
  have key : request_shutdown_one s a reason = (s, []) := by
    unfold request_shutdown_one
    rw [request_shutdown_core, hfind]
    simp [h]
  exact ⟨key, key⟩

/-- Witness for C8 at a child whose shutdown request is already SENT. -/
theorem c8_witness :
    request_shutdown_one sampleSupSent 1 sampleReason = (sampleSupSent, []) ∧
    on_shutdown_trigger sampleSupSent ⟨1, sampleReason⟩ = (sampleSupSent, []) :=
  c8_request_shutdown_dedup sampleSupSent 1 sampleReason
    { sampleChildEntry with shutdown := request_state_t.SENT } (by decide) (by decide)

/-- C9: the prestarter's `handle_init` succeeds iff nothing is tracked
(otherwise it records that init must be continued); each subscription event
erases the matching tracked point; the event that empties the tracked set
calls the actor's `init_continue` exactly once and only if `handle_init` had
previously returned false (the `continue_init` flag); and when the tracked
set is empty at activation both the INIT and SUBSCRIPTION reactions are
turned off immediately. -/
theorem c9_prestarter :
    (∀ p : prestarter_t, (prestarter_handle_init p).1 = true ↔ p.tracked = []) ∧
    (∀ p : prestarter_t, (prestarter_handle_init p).1 = false →
      (prestarter_handle_init p).2.continue_init = true ∧
        (prestarter_handle_init p).2.tracked = p.tracked) ∧
    (∀ (p : prestarter_t) (x : point_t),
      (prestarter_handle_subscription p x).1.tracked = p.tracked.erase x) ∧
    (∀ (p : prestarter_t) (x : point_t),
      ((prestarter_handle_subscription p x).2.2 = true ↔
        (p.tracked.erase x = [] ∧ p.continue_init = true)) ∧
      ((prestarter_handle_subscription p x).2.2 = true →
        (prestarter_handle_subscription p x).1.continue_init = false ∧
          (prestarter_handle_subscription p x).2.1 = processing_result_t.FINISHED)) ∧
    ((prestarter_activate []).reactions = [] ∧
      ∀ l : List point_t, l ≠ [] →
        reaction_t.INIT ∈ (prestarter_activate l).reactions ∧
          reaction_t.SUBSCRIPTION ∈ (prestarter_activate l).reactions) := by
  refine ⟨?_, ?_, ?_, ?_, ?_, ?_⟩
  · intro p
    unfold prestarter_handle_init
    by_cases h : p.tracked = []
    · simp [h]
    · simp [h, List.isEmpty_iff]
  · intro p
    unfold prestarter_handle_init
    by_cases h : p.tracked = []
    · simp [h]
    · simp [h, List.isEmpty_iff]
  · intro p x
    unfold prestarter_handle_subscription
    by_cases h1 : (p.tracked.erase x).isEmpty
    · by_cases h2 : p.continue_init <;> simp [h1, h2]
    · simp [h1]
  · intro p x
    unfold prestarter_handle_subscription
    by_cases h1 : (p.tracked.erase x).isEmpty
    · by_cases h2 : p.continue_init <;>
        simp [h1, h2, List.isEmpty_iff.mp h1]
    · have h1' : ¬ p.tracked.erase x = [] := fun h => h1 (List.isEmpty_iff.mpr h)
      simp [h1, h1']
  · rfl
  · intro l h
    unfold prestarter_activate
    simp [List.isEmpty_iff, h]

/-- Witness for C9: the subscription event that empties the tracked set with
`continue_init` pending calls `init_continue` and resets the flag. -/
theorem c9_witness :
    (prestarter_handle_subscription samplePre 5).2.2 = true ∧
    (prestarter_handle_subscription samplePre 5).1.continue_init = false := by
  have h := (c9_prestarter.2.2.2.1 samplePre 5).1.mpr (by decide)
  exact ⟨h, ((c9_prestarter.2.2.2.1 samplePre 5).2 h).1⟩

/-- C10: for every handler variant and every message, `handler_t::call`
invokes the bound callee exactly once when the message's type token equals
the handler's message type, and otherwise does nothing; the downcast to the
handler's concrete message type happens (and succeeds) only on a token
match. -/
theorem c10_handler_call (h : handler_t) (m : message_ptr_t) :
    (m.type_index = h.message_type →
      handler_call h m = [{ backend := h.backend, msg := m }] ∧
        downcast m h.message_type = some m) ∧
    (m.type_index ≠ h.message_type →
      handler_call h m = [] ∧ downcast m h.message_type = none) ∧
    (handler_call h m).length = (if m.type_index = h.message_type then 1 else 0) := by
  by_cases hm : m.type_index = h.message_type <;> simp [handler_call, downcast, hm]

/-- Witness for C10 at a matching and a non-matching message. -/
theorem c10_witness :
    handler_call sampleHandler sampleMsg =
      [{ backend := handler_backend_t.lambda_fn 7, msg := sampleMsg }] ∧
    handler_call sampleHandler sampleMsgOther = [] :=
  ⟨((c10_handler_call sampleHandler sampleMsg).1 (by decide)).1,
   ((c10_handler_call sampleHandler sampleMsgOther).2.1 (by decide)).1⟩

/-- C1 counterexample: at a concrete supervisor under policy
`shutdown_failed` in state INITIALIZING, the failing child is shut down with
reason code `init_failed` wrapping its error, and no effect of the call
carries code `child_init_failed` — contradicting the claimed reason code. -/
theorem c1_counterexample :
    (effect_t.do_shutdown_on 1
        (extended_error_t.wrap (err_code_t.shut shutdown_code_t.init_failed) sampleErr))
      ∈ (on_init sampleSup ⟨1, some sampleErr⟩).2 ∧
    ((on_init sampleSup ⟨1, some sampleErr⟩).2.all fun eff =>
      !(effect_reason_code eff ==
        some (err_code_t.shut shutdown_code_t.child_init_failed))) = true := by
  decide

/-- C1 (amended): for an init-response carrying an error for a child present
in the map, when the supervisor is not both INITIALIZING and under policy
`shutdown_self`, only the failing child is shut down, with reason code
`init_failed` wrapping the child's error; the supervisor's state, its
pending init request and its map are unchanged, no init-error reply is sent
and the supervisor itself is not shut down. -/
theorem c1_on_init_error_other_policy (s : supervisor_t) (a : address_t)
    (e : extended_error_t) (st : actor_state_t)
    (hnot : ¬ (s.state = state_t.INITIALIZING ∧ s.policy = supervisor_policy_t.shutdown_self))
    (hfound : find_state s.actors_map a = some st) (hne : a ≠ s.selfAddr) :
    on_init s ⟨a, some e⟩ =
      (s, [effect_t.do_shutdown_on a
            (extended_error_t.wrap (err_code_t.shut shutdown_code_t.init_failed) e),
          effect_t.on_child_init true a]) := by
  unfold on_init
  simp [hnot, hfound, hne]

/-- Witness for C1 at a concrete supervisor and failing child. -/
theorem c1_witness :
    on_init sampleSup ⟨1, some sampleErr⟩ =
      (sampleSup, [effect_t.do_shutdown_on 1
          (extended_error_t.wrap (err_code_t.shut shutdown_code_t.init_failed) sampleErr),
        effect_t.on_child_init true 1]) :=
  c1_on_init_error_other_policy sampleSup 1 sampleErr sampleChildEntry
    (by decide) (by decide) (by decide)

/-- C3: for an init-response with an error received while the supervisor is
INITIALIZING under policy `shutdown_self`: with a pending init request the
supervisor replies with `failure_escalation` wrapping the child's error and
clears the request without shutting itself down; without one it calls
`do_shutdown` on itself with `child_init_failed` wrapping the child's
error. -/
theorem c3_on_init_shutdown_self (s : supervisor_t) (a : address_t) (e : extended_error_t)
    (h1 : s.state = state_t.INITIALIZING) (h2 : s.policy = supervisor_policy_t.shutdown_self) :
    (s.init_request = true →
      on_init s ⟨a, some e⟩ =
        ({ s with init_request := false },
          effect_t.reply_init_error
              (extended_error_t.wrap (err_code_t.err error_code_t.failure_escalation) e) ::
            (if a = s.selfAddr then []
             else [effect_t.on_child_init (find_state s.actors_map a).isSome a]))) ∧
    (s.init_request = false →
      on_init s ⟨a, some e⟩ =
        (s, effect_t.do_shutdown_on s.selfAddr
              (extended_error_t.wrap (err_code_t.shut shutdown_code_t.child_init_failed) e) ::
            (if a = s.selfAddr then []
             else [effect_t.on_child_init (find_state s.actors_map a).isSome a]))) := by
  constructor <;> intro hreq <;> unfold on_init <;> simp [h1, h2, hreq]

/-- Witness for C3: both the pending-request and the no-request cases at a
concrete supervisor. -/
theorem c3_witness :
    on_init sampleSupSelf ⟨1, some sampleErr⟩ =
      ({ sampleSupSelf with init_request := false },
        [effect_t.reply_init_error
            (extended_error_t.wrap (err_code_t.err error_code_t.failure_escalation) sampleErr),
          effect_t.on_child_init true 1]) ∧
    on_init { sampleSupSelf with init_request := false } ⟨1, some sampleErr⟩ =
      ({ sampleSupSelf with init_request := false },
        [effect_t.do_shutdown_on 0
            (extended_error_t.wrap (err_code_t.shut shutdown_code_t.child_init_failed) sampleErr),
          effect_t.on_child_init true 1]) := by
  constructor
  · exact (c3_on_init_shutdown_self sampleSupSelf 1 sampleErr (by decide) (by decide)).1 (by decide)
  · exact (c3_on_init_shutdown_self { sampleSupSelf with init_request := false } 1 sampleErr
      (by decide) (by decide)).2 (by decide)

/-- C4: evaluating `request_shutdown` on the failing input — a parentless
supervisor's self-entry with no shutdown requested yet and the supervisor
not yet SHUTTING_DOWN.  The path taken is the one that sets the entry to
CONFIRMED (visible from the `shutdown_start`/`shutdown_continue` effects),
yet the entry ends at SENT: the final re-assignment overwrites CONFIRMED. -/
theorem c4_failing_eval :
    shutdown_of (request_shutdown_one sampleSupSolo 0 sampleReason).1.actors_map 0 =
      some request_state_t.SENT ∧
    effect_t.shutdown_start ∈ (request_shutdown_one sampleSupSolo 0 sampleReason).2 ∧
    effect_t.shutdown_continue ∈ (request_shutdown_one sampleSupSolo 0 sampleReason).2 := by
  decide

/-- C5: with `synchronize_start` true a child's successful init-response
sends no start-actor message (the entry is marked initialized but not
started), `handle_start` sends start-actor to exactly the non-self entries
and marks each started; with `synchronize_start` false the child is started
immediately on its successful init-response. -/
theorem c5_synchronize_start :
    (∀ (s : supervisor_t) (a : address_t) (st : actor_state_t),
      s.synchronize_start = true → a ≠ s.selfAddr → find_state s.actors_map a = some st →
      effect_t.send_start_actor a ∉ (on_init s ⟨a, none⟩).2 ∧
      find_state (on_init s ⟨a, none⟩).1.actors_map a = some { st with initialized := true }) ∧
    (∀ s : supervisor_t, s.synchronize_start = true →
      (handle_start s).1.actors_map =
        s.actors_map.map
          (fun st => if st.addr = s.selfAddr then st else { st with strated := true }) ∧
      (handle_start s).2 =
        (s.actors_map.filter fun st => st.addr != s.selfAddr).map
          (fun st => effect_t.send_start_actor st.addr)) ∧
    (∀ (s : supervisor_t) (a : address_t) (st : actor_state_t),
      s.synchronize_start = false → a ≠ s.selfAddr → find_state s.actors_map a = some st →
      effect_t.send_start_actor a ∈ (on_init s ⟨a, none⟩).2 ∧
      find_state (on_init s ⟨a, none⟩).1.actors_map a =
        some { st with initialized := true, strated := true }) := by
  refine ⟨?_, ?_, ?_⟩
  · intro s a st hsync hne hfound
    rw [(on_init_ok_shape s a st hne hfound).1 hsync]
    constructor
    · intro hmem
      rcases List.mem_append.mp hmem with h | h
      · split at h
        · simp at h
        · exact send_start_not_in_init_continue _ a h
      · simp at h
    · exact find_set_initialized s.actors_map a st hfound
  · intro s hsync
    unfold handle_start
    rw [if_pos hsync, handle_start_fold s.selfAddr s.actors_map]
    exact ⟨by simp, by simp⟩
  · intro s a st hsync hne hfound
    rw [(on_init_ok_shape s a st hne hfound).2 hsync]
    refine ⟨by simp, ?_⟩
    exact find_set_strated _ a _ (find_set_initialized s.actors_map a st hfound)

/-- Witness for C5: with synchronize-start no start is sent on a child's
init success, `handle_start` broadcasts to the two children, and without
synchronize-start the child is started immediately. -/
theorem c5_witness :
    effect_t.send_start_actor 1 ∉ (on_init sampleSupSync ⟨1, none⟩).2 ∧
    (handle_start sampleSupSync).2 =
      [effect_t.send_start_actor 1, effect_t.send_start_actor 2] ∧
    effect_t.send_start_actor 1 ∈ (on_init sampleSup ⟨1, none⟩).2 := by
  refine ⟨(c5_synchronize_start.1 sampleSupSync 1 sampleChildEntry rfl (by decide) (by decide)).1,
    ?_,
    (c5_synchronize_start.2.2 sampleSup 1 sampleChildEntry rfl (by decide) (by decide)).1⟩
  exact ((c5_synchronize_start.2.1 sampleSupSync rfl).2).trans (by decide)

/-- C2 counterexample: at a concrete supervisor with one child whose
shutdown state is NONE, the claimed invariant (self-entry CONFIRMED only if
every child entry is CONFIRMED) holds before `handle_shutdown` but not
after it: `handle_shutdown` confirms the self-entry immediately while the
child's request is merely SENT. -/
theorem c2_counterexample :
    children_confirmed_if_self sampleSup = true ∧
    children_confirmed_if_self (handle_shutdown sampleSup sampleReason).2.1 = false := by
  decide

/-- C2 (amended): `handle_shutdown` sets the supervisor's self-entry
shutdown state to CONFIRMED unconditionally — before the children have
confirmed — to deduplicate shutdown requests; the supervisor's own shutdown
confirmation is gated instead by the returned flag, which is true only when
no child entry remains in the map. -/
theorem c2_handle_shutdown_self_confirmed (s : supervisor_t) (reason : extended_error_t)
    (st0 : actor_state_t) (hself : find_state s.actors_map s.selfAddr = some st0) :
    shutdown_of (handle_shutdown s reason).2.1.actors_map s.selfAddr =
      some request_state_t.CONFIRMED ∧
    ((handle_shutdown s reason).1 = true →
      (handle_shutdown s reason).2.1.actors_map.length = 1) := by
  constructor
  · simp only [handle_shutdown, request_shutdown_all]
    refine foldl_invariant
      (fun (acc : supervisor_t × List effect_t) =>
        shutdown_of acc.1.actors_map s.selfAddr = some request_state_t.CONFIRMED)
      _ _ _ ?_ (fun x b hx => request_shutdown_core_pres_confirmed _ _ _ _ _ hx)
    exact shutdown_of_set_eq _ _ _ _ hself
  · intro h
    simp only [handle_shutdown, Bool.and_eq_true, beq_iff_eq] at h
    exact h.1

/-- Witness for C2: the amended statement at a concrete supervisor. -/
theorem c2_witness :
    shutdown_of (handle_shutdown sampleSup sampleReason).2.1.actors_map sampleSup.selfAddr =
      some request_state_t.CONFIRMED :=
  (c2_handle_shutdown_self_confirmed sampleSup sampleReason sampleSelfEntry (by decide)).1

/-- C7: the supervisor never lets its own shutdown confirmation proceed
while a child entry with an unconfirmed shutdown remains: when
`handle_shutdown` returns true, and when `remove_child` advances
`shutdown_continue`, every remaining map entry is the self-entry or has a
CONFIRMED shutdown state (in fact only the self-entry can remain). -/
theorem c7_no_confirm_with_children :
    (∀ (s : supervisor_t) (reason : extended_error_t) (st0 : actor_state_t),
      find_state s.actors_map s.selfAddr = some st0 →
      (handle_shutdown s reason).1 = true →
      ((handle_shutdown s reason).2.1.actors_map.all fun st' =>
        (st'.addr == s.selfAddr) || (st'.shutdown == request_state_t.CONFIRMED)) = true) ∧
    (∀ (s : supervisor_t) (a : address_t) (entry st0 : actor_state_t),
      find_state s.actors_map a = some entry →
      find_state s.actors_map s.selfAddr = some st0 →
      (a ≠ s.selfAddr ∨ s.actors_map.length = 1) →
      effect_t.shutdown_continue ∈ (remove_child s a).2 →
      ((remove_child s a).1.actors_map.all fun st' =>
        (st'.addr == s.selfAddr) || (st'.shutdown == request_state_t.CONFIRMED)) = true) := by
  constructor
  · intro s reason st0 hself hret
    simp only [handle_shutdown, Bool.and_eq_true, beq_iff_eq] at hret
    have hlen := hret.1
    simp only [handle_shutdown]
    rw [List.all_eq_true]
    intro st' hmem
    have haddrs : (request_shutdown_all ((s.actors_map.length + 1) + 1) reason
        { s with actors_map :=
          set_shutdown s.actors_map s.selfAddr request_state_t.CONFIRMED }).1.actors_map.map
          (fun st => st.addr) = s.actors_map.map (fun st => st.addr) := by
      unfold request_shutdown_all
      refine foldl_invariant
        (fun (acc : supervisor_t × List effect_t) =>
          acc.1.actors_map.map (fun st => st.addr) = s.actors_map.map (fun st => st.addr))
        _ _ _ ?_ (fun x b hx => (request_shutdown_core_addrs _ reason x.1 b).trans hx)
      exact set_shutdown_addrs _ _ _
    have hmemself : s.selfAddr ∈ s.actors_map.map (fun st => st.addr) := by
      rcases find_state_mem _ _ _ hself with ⟨hm, he⟩
      exact List.mem_map.mpr ⟨st0, hm, he⟩
    rw [← haddrs] at hmemself
    have hlen' : ((request_shutdown_all ((s.actors_map.length + 1) + 1) reason
        { s with actors_map :=
          set_shutdown s.actors_map s.selfAddr request_state_t.CONFIRMED }).1.actors_map.map
          (fun st => st.addr)).length ≤ 1 := by
      rw [List.length_map, hlen]
    have : (request_shutdown_all ((s.actors_map.length + 1) + 1) reason
        { s with actors_map :=
          set_shutdown s.actors_map s.selfAddr request_state_t.CONFIRMED }).1.actors_map.map
          (fun st => st.addr) = [s.selfAddr] := length_le_one_mem hlen' hmemself
    have haddr' : st'.addr ∈ [s.selfAddr] := by
      rw [← this]
      exact List.mem_map.mpr ⟨st', hmem, rfl⟩
    simp only [List.mem_singleton] at haddr'
    simp [haddr']
  · intro s a entry st0 hfound hself hside hmem
    have hcond := remove_child_cont s a entry hfound hmem
    simp only [remove_child, hfound]
    rw [List.all_eq_true]
    intro st' hmem'
    rcases hside with hne | hone
    · -- the self-entry survives the erase, so it is the only survivor
      have hst0 : st0 ∈ s.actors_map.filter fun st => st.addr != a := by
        rcases find_state_mem _ _ _ hself with ⟨hm, he⟩
        refine List.mem_filter.mpr ⟨hm, ?_⟩
        simp [he, Ne.symm hne]
      have heq : (s.actors_map.filter fun st => st.addr != a) = [st0] :=
        length_le_one_mem hcond.2 hst0
      rw [heq] at hmem'
      simp only [List.mem_singleton] at hmem'
      rcases find_state_mem _ _ _ hself with ⟨_, he⟩
      simp [hmem', he]
    · -- the whole map was the removed entry; nothing survives
      have hmapone : s.actors_map = [entry] := by
        rcases find_state_mem _ _ _ hfound with ⟨hm, _⟩
        rcases List.length_eq_one.mp hone with ⟨y, hy⟩
        rw [hy] at hm ⊢
        simp only [List.mem_singleton] at hm
        rw [hm]
      rcases find_state_mem _ _ _ hfound with ⟨_, hea⟩
      rw [hmapone] at hmem'
      simp [hea] at hmem'

/-- Witness for C7: both conclusions at concrete supervisors. -/
theorem c7_witness :
    ((handle_shutdown sampleSupSolo sampleReason).2.1.actors_map.all fun st' =>
      (st'.addr == sampleSupSolo.selfAddr) ||
        (st'.shutdown == request_state_t.CONFIRMED)) = true ∧
    ((remove_child sampleSupDown 1).1.actors_map.all fun st' =>
      (st'.addr == sampleSupDown.selfAddr) ||
        (st'.shutdown == request_state_t.CONFIRMED)) = true :=
  ⟨c7_no_confirm_with_children.1 sampleSupSolo sampleReason sampleSelfEntry
      (by decide) (by decide),
   c7_no_confirm_with_children.2 sampleSupDown 1
      { sampleChildEntry with strated := true, shutdown := request_state_t.CONFIRMED }
      { sampleSelfEntry with shutdown := request_state_t.CONFIRMED }
      (by decide) (by decide) (Or.inl (by decide)) (by decide)⟩

end rotor
